import Mathlib

/-!
# core/frame/frame.cpp : mutable_frame and const_frame

A shallow embedding of `src/src/core/frame/frame.cpp`.

* Pointers (`const void*` stream tags, the address of a shared storage block)
  are natural numbers; `0` is `nullptr`.
* `mutable_frame` owns its state exclusively, so its handle `impl_` is an
  `Option` of the state itself (`none` is the moved-from handle).
* `const_frame` shares one never-mutated storage block between all holders, so
  its handle is an `Option` of a block: the block's address together with the
  `const_frame::impl` stored there.  `new impl(...)` threads a `Heap` that
  records the addresses of live blocks.
* `std::vector::at` and dereferencing an empty handle are the two ways an
  accessor can go wrong; both are results of type `Except frame_error _`.
-/

namespace caspar.core

/-! ## Supporting types (declared in headers outside `frame.cpp`) -/

/-- Failure of an accessor.  `out_of_range` is what `std::vector::at` throws;
`invalid_argument` is `caspar::invalid_argument` of `common/except.h`, which
`frame.cpp` includes but never throws; `null_impl` stands for dereferencing an
empty `impl_` handle, which C++ leaves undefined. -/
inductive frame_error where
  | out_of_range
  | invalid_argument
  | null_impl
  deriving DecidableEq, Repr

deriving instance DecidableEq for Except

/-- The checked element access `std::vector::at(index)`. -/
def vector_at {α : Type} (v : List α) (index : Nat) : Except frame_error α :=
  match v[index]? with
  | some x => .ok x
  | none => .error .out_of_range

/-- Modelled from the spec: `array<T>` of `common/array.h` (not under src/), the
external `Buffer<T>`: a possibly-empty indexable block of samples.  Only the
samples are kept; `array<T>` and `array<const T>` differ in C++ only in
write access and are both this type. -/
structure array (T : Type) where
  data : List T
  deriving DecidableEq, Repr

/-- The default-constructed (empty) buffer `array<T>{}`. -/
def array.empty {T : Type} : array T := ⟨[]⟩

/-- The element count `array::size()`. -/
def array.size {T : Type} (a : array T) : Nat := a.data.length

/-- Modelled from the spec: move construction of an `array` (`common/array.h`
is not under src/): the new buffer takes over the samples without copying.
Returns `(new buffer, source afterwards)`.  What a moved-from buffer holds is
fixed in `array.h`; the second component follows the spec's description of
finalisation (the source is drained), and the theorems on finalisation refer
to it only as `(array.move a).2`, whatever its value. -/
def array.move {T : Type} (a : array T) : array T × array T := (⟨a.data⟩, array.empty)

/-- Modelled from the spec: the pixel format tag of `core/frame/pixel_format.h`
(not under src/).  `frame.cpp` names only the `invalid` sentinel; every other
format is an uninterpreted code. -/
inductive pixel_format where
  | invalid
  | format (code : Nat)
  deriving DecidableEq, Repr

/-- Modelled from the spec: one entry of `pixel_format_desc::planes`
(`core/frame/pixel_format.h` is not under src/): `{width, height, stride, size}`. -/
structure pixel_format_desc.plane where
  width : Nat
  height : Nat
  stride : Nat
  size : Nat
  deriving DecidableEq, Repr

/-- Modelled from the spec: `pixel_format_desc` of `core/frame/pixel_format.h`
(not under src/): a format tag and an ordered sequence of plane descriptors. -/
structure pixel_format_desc where
  format : pixel_format
  planes : List pixel_format_desc.plane
  deriving DecidableEq, Repr

/-- Modelled from the spec: the conversion `pixel_format -> pixel_format_desc`
used by the member initialiser `desc_ = pixel_format::invalid` (frame.cpp:97);
`core/frame/pixel_format.h` is not under src/.  Which planes a descriptor
built from the format tag alone carries is fixed in that header; the model
gives it none, and where a theorem names this descriptor it stands for a
descriptor without planes. -/
def pixel_format_desc.of_format (format : pixel_format) : pixel_format_desc :=
  { format := format, planes := [] }

/-- Modelled from the spec: `frame_geometry` of `core/frame/geometry.h` (not
under src/): metadata this file never interprets, kept as an uninterpreted code. -/
structure frame_geometry where
  code : Nat
  deriving DecidableEq, Repr

/-- Modelled from the spec: `frame_geometry::get_default()`, the process-wide
default geometry (`core/frame/geometry.h` is not under src/). -/
def frame_geometry.get_default : frame_geometry := ⟨0⟩

/-! ## mutable_frame (frame.cpp:43-90) -/

/-- The state `struct mutable_frame::impl` (frame.cpp:43-61). -/
structure mutable_frame.impl where
  image_data_ : List (array Nat)
  audio_data_ : array Int
  desc_ : pixel_format_desc
  tag_ : Nat
  geometry_ : frame_geometry
  deriving DecidableEq, Repr

/-- The constructor `mutable_frame::impl::impl(tag, image_data, audio_data, desc)`
(frame.cpp:51-60); `geometry_` takes its default member initialiser (frame.cpp:49). -/
def mutable_frame.impl.ctor (tag : Nat) (image_data : List (array Nat))
    (audio_data : array Int) (desc : pixel_format_desc) : mutable_frame.impl :=
  { image_data_ := image_data
    audio_data_ := audio_data
    desc_ := desc
    tag_ := tag
    geometry_ := frame_geometry.get_default }

/-- A `mutable_frame`: the exclusively owned handle `impl_`. -/
structure mutable_frame where
  impl_ : Option mutable_frame.impl
  deriving DecidableEq, Repr

namespace mutable_frame

/-- The dereference `*impl_` behind every `impl_->`. -/
def deref (self : mutable_frame) : Except frame_error mutable_frame.impl :=
  match self.impl_ with
  | some p => .ok p
  | none => .error .null_impl

/-- The constructor `mutable_frame::mutable_frame(tag, image_data, audio_data, desc)`
(frame.cpp:63-69). -/
def ctor (tag : Nat) (image_data : List (array Nat)) (audio_data : array Int)
    (desc : pixel_format_desc) : mutable_frame :=
  { impl_ := some (mutable_frame.impl.ctor tag image_data audio_data desc) }

/-- The move constructor `mutable_frame::mutable_frame(mutable_frame&& other)`
(frame.cpp:70-73).  Returns `(new frame, other afterwards)`. -/
def ctor_move (other : mutable_frame) : mutable_frame × mutable_frame :=
  ({ impl_ := other.impl_ }, { impl_ := none })

/-- The move assignment `mutable_frame::operator=(mutable_frame&& other)`
(frame.cpp:75-79) on a store of frames: `*this` is the frame at position
`self`, `other` the frame at position `other`, and the two are one object
when the positions are equal.  `impl_ = std::move(other.impl_)` first
releases the handle of `other`, which leaves it empty, and then resets the
handle of `*this` to the released state. -/
def assign (frames : List mutable_frame) (self other : Nat) : List mutable_frame :=
  match frames[other]? with
  | some o => (frames.set other { impl_ := none }).set self { impl_ := o.impl_ }
  | none => frames

/-- The exchange `mutable_frame::swap(mutable_frame& other)` (frame.cpp:80).
Returns `(*this afterwards, other afterwards)`. -/
def swap (self : mutable_frame) (other : mutable_frame) : mutable_frame × mutable_frame :=
  ({ impl_ := other.impl_ }, { impl_ := self.impl_ })

/-- The accessor `mutable_frame::pixel_format_desc()` (frame.cpp:81). -/
def pixel_format_desc (self : mutable_frame) : Except frame_error caspar.core.pixel_format_desc :=
  self.deref.map (fun p => p.desc_)

/-- The accessor `mutable_frame::image_data(index)` (frame.cpp:82 and 84). -/
def image_data (self : mutable_frame) (index : Nat) : Except frame_error (array Nat) :=
  match self.impl_ with
  | some p => vector_at p.image_data_ index
  | none => .error .null_impl

/-- The accessor `mutable_frame::audio_data()` (frame.cpp:83 and 85). -/
def audio_data (self : mutable_frame) : Except frame_error (array Int) :=
  self.deref.map (fun p => p.audio_data_)

/-- The accessor `mutable_frame::width()` (frame.cpp:86). -/
def width (self : mutable_frame) : Except frame_error Nat :=
  match self.impl_ with
  | some p => (vector_at p.desc_.planes 0).map (fun pl => pl.width)
  | none => .error .null_impl

/-- The accessor `mutable_frame::height()` (frame.cpp:87). -/
def height (self : mutable_frame) : Except frame_error Nat :=
  match self.impl_ with
  | some p => (vector_at p.desc_.planes 0).map (fun pl => pl.height)
  | none => .error .null_impl

/-- The accessor `mutable_frame::stream_tag()` (frame.cpp:88). -/
def stream_tag (self : mutable_frame) : Except frame_error Nat :=
  self.deref.map (fun p => p.tag_)

/-- The accessor `mutable_frame::geometry()` (frame.cpp:89-90). -/
def geometry (self : mutable_frame) : Except frame_error frame_geometry :=
  self.deref.map (fun p => p.geometry_)

/-- Writing `value` through the reference returned by the writable
`mutable_frame::geometry()` (frame.cpp:90). -/
def set_geometry (self : mutable_frame) (value : frame_geometry) :
    Except frame_error mutable_frame :=
  match self.impl_ with
  | some p => .ok { impl_ := some { p with geometry_ := value } }
  | none => .error .null_impl

/-- Writing `value` through the reference returned by the writable
`mutable_frame::image_data(index)` (frame.cpp:84). -/
def set_image_data (self : mutable_frame) (index : Nat) (value : array Nat) :
    Except frame_error mutable_frame :=
  match self.impl_ with
  | some p =>
    if index < p.image_data_.length then
      .ok { impl_ := some { p with image_data_ := p.image_data_.set index value } }
    else .error .out_of_range
  | none => .error .null_impl

/-- Writing `value` through the reference returned by the writable
`mutable_frame::audio_data()` (frame.cpp:85). -/
def set_audio_data (self : mutable_frame) (value : array Int) :
    Except frame_error mutable_frame :=
  match self.impl_ with
  | some p => .ok { impl_ := some { p with audio_data_ := value } }
  | none => .error .null_impl

/-- The writable accessor `mutable_frame::image_data(index)` (frame.cpp:84), as the
buffer the returned reference denotes.  Its body is that of the read-only
accessor (frame.cpp:82): `impl_->image_data_.at(index)`. -/
def image_data_mut (self : mutable_frame) (index : Nat) : Except frame_error (array Nat) :=
  match self.impl_ with
  | some p => vector_at p.image_data_ index
  | none => .error .null_impl

/-- The statement `frame.image_data(index) = value` as a step on the frame: the
outcome of the call and the frame afterwards.  `std::vector::at` throws
before anything is stored, so after a failing call the frame is the frame
before. -/
def store_image_data (self : mutable_frame) (index : Nat) (value : array Nat) :
    Except frame_error Unit × mutable_frame :=
  match self.set_image_data index value with
  | .ok after => (.ok (), after)
  | .error e => (.error e, self)

end mutable_frame

/-! ## const_frame (frame.cpp:92-191) -/

/-- The state `struct const_frame::impl` (frame.cpp:92-98). -/
structure const_frame.impl where
  tag_ : Nat
  image_data_ : List (array Nat)
  audio_data_ : array Int
  desc_ : pixel_format_desc
  geometry_ : frame_geometry
  deriving DecidableEq, Repr

namespace const_frame.impl

/-- The constructor `impl(const void* tag)` (frame.cpp:100-103): every other member
takes its default member initialiser (frame.cpp:95-98). -/
def ctor_tag (tag : Nat) : const_frame.impl :=
  { tag_ := tag
    image_data_ := []
    audio_data_ := array.empty
    desc_ := pixel_format_desc.of_format pixel_format.invalid
    geometry_ := frame_geometry.get_default }

/-- The constructor `impl(tag, image_data, audio_data, desc)` over read-only
buffers (frame.cpp:105-114). -/
def ctor_data (tag : Nat) (image_data : List (array Nat)) (audio_data : array Int)
    (desc : pixel_format_desc) : const_frame.impl :=
  { tag_ := tag
    image_data_ := image_data
    audio_data_ := audio_data
    desc_ := desc
    geometry_ := frame_geometry.get_default }

/-- The constructor `impl(tag, std::vector<array<std::uint8_t>>&& image_data, audio_data, desc)`
(frame.cpp:116-125): each writable plane is moved into a read-only one. -/
def ctor_mutable_data (tag : Nat) (image_data : List (array Nat)) (audio_data : array Int)
    (desc : pixel_format_desc) : const_frame.impl :=
  { tag_ := tag
    image_data_ := image_data.map (fun a => (array.move a).1)
    audio_data_ := audio_data
    desc_ := desc
    geometry_ := frame_geometry.get_default }

/-- The constructor `impl(mutable_frame&& other)` (frame.cpp:127-135).  Every plane
and the audio buffer are moved out of `other`; `desc_` is `const` in `other`
and the tag is a plain pointer, so both are copied.  `geometry_` is moved as
well; what a moved-from `frame_geometry` holds is decided in `geometry.h`,
and the model leaves the value in place.  Returns `(new state, other
afterwards)`; `other` keeps its handle, with as many (drained) planes as
before. -/
def ctor_mutable_frame (other : mutable_frame) :
    Except frame_error (const_frame.impl × mutable_frame) :=
  match other.impl_ with
  | none => .error .null_impl
  | some o =>
    .ok ({ tag_ := o.tag_
           image_data_ := o.image_data_.map (fun a => (array.move a).1)
           audio_data_ := (array.move o.audio_data_).1
           desc_ := o.desc_
           geometry_ := o.geometry_ },
         { impl_ := some { o with
             image_data_ := o.image_data_.map (fun a => (array.move a).2)
             audio_data_ := (array.move o.audio_data_).2 } })

/-- The accessor `const_frame::impl::image_data(index)` (frame.cpp:137-141). -/
def image_data (self : const_frame.impl) (index : Nat) : Except frame_error (array Nat) :=
  if self.tag_ ≠ 0 then vector_at self.image_data_ index else .ok array.empty

/-- The accessor `const_frame::impl::width()` (frame.cpp:143). -/
def width (self : const_frame.impl) : Except frame_error Nat :=
  if self.tag_ ≠ 0 then (vector_at self.desc_.planes 0).map (fun pl => pl.width) else .ok 0

/-- The accessor `const_frame::impl::height()` (frame.cpp:145). -/
def height (self : const_frame.impl) : Except frame_error Nat :=
  if self.tag_ ≠ 0 then (vector_at self.desc_.planes 0).map (fun pl => pl.height) else .ok 0

/-- The accessor `const_frame::impl::size()` (frame.cpp:147). -/
def size (self : const_frame.impl) : Except frame_error Nat :=
  if self.tag_ ≠ 0 then (vector_at self.desc_.planes 0).map (fun pl => pl.size) else .ok 0

end const_frame.impl

/-- A shared storage block: the address `new impl(...)` returned and the state
stored there.  The state has no writer after construction, so every holder of
the address sees this same value. -/
structure block where
  addr : Nat
  val : const_frame.impl
  deriving DecidableEq, Repr

/-- The allocator state: the addresses of the storage blocks that are alive. -/
structure Heap where
  live : List Nat
  deriving DecidableEq, Repr

/-- The address handed out by the next `new`: non-null and above every live
address, hence different from each of them. -/
def Heap.fresh (h : Heap) : Nat := h.live.foldr max 0 + 1

/-- The expression `new impl(...)`: stores `v` in a block at a fresh address. -/
def Heap.new_impl (h : Heap) (v : const_frame.impl) : block × Heap :=
  ({ addr := h.fresh, val := v }, { live := h.fresh :: h.live })

/-- A `const_frame`: the shared handle `impl_`. -/
structure const_frame where
  impl_ : Option block
  deriving DecidableEq, Repr

namespace const_frame

/-- The raw pointer held by `impl_`, `nullptr` for an empty handle. -/
def get (self : const_frame) : Nat :=
  match self.impl_ with
  | some b => b.addr
  | none => 0

/-- The dereference `*impl_` behind every `impl_->`. -/
def deref (self : const_frame) : Except frame_error const_frame.impl :=
  match self.impl_ with
  | some b => .ok b.val
  | none => .error .null_impl

/-- The constructor `const_frame::const_frame(const void* tag)` (frame.cpp:150-153). -/
def ctor_tag (h : Heap) (tag : Nat) : const_frame × Heap :=
  let r := h.new_impl (const_frame.impl.ctor_tag tag)
  ({ impl_ := some r.1 }, r.2)

/-- The constructor `const_frame::const_frame(tag, image_data, audio_data, desc)`
(frame.cpp:154-160). -/
def ctor_data (h : Heap) (tag : Nat) (image_data : List (array Nat)) (audio_data : array Int)
    (desc : pixel_format_desc) : const_frame × Heap :=
  let r := h.new_impl (const_frame.impl.ctor_data tag image_data audio_data desc)
  ({ impl_ := some r.1 }, r.2)

/-- The move constructor `const_frame::const_frame(const_frame&& other)`
(frame.cpp:161-164).  Returns `(new frame, other afterwards)`. -/
def ctor_move (other : const_frame) : const_frame × const_frame :=
  ({ impl_ := other.impl_ }, { impl_ := none })

/-- The finalising constructor `const_frame::const_frame(mutable_frame&& other)`
(frame.cpp:165-168).  Returns `(new frame, other afterwards, heap afterwards)`. -/
def ctor_mutable_frame (h : Heap) (other : mutable_frame) :
    Except frame_error (const_frame × mutable_frame × Heap) :=
  match const_frame.impl.ctor_mutable_frame other with
  | .error e => .error e
  | .ok (v, other1) =>
    let r := h.new_impl v
    .ok ({ impl_ := some r.1 }, other1, r.2)

/-- The copy constructor `const_frame::const_frame(const const_frame& other)`
(frame.cpp:169-172); `other` is taken by const reference. -/
def ctor_copy (other : const_frame) : const_frame :=
  { impl_ := other.impl_ }

/-- The assignment `const_frame::operator=(const_frame other)` (frame.cpp:174-178);
`other` is the by-value parameter, a copy the caller made with `ctor_copy`. -/
def assign (_self : const_frame) (other : const_frame) : const_frame :=
  { impl_ := other.impl_ }

/-- The comparison `const_frame::operator==` (frame.cpp:179). -/
def op_eq (self other : const_frame) : Bool := self.get == other.get

/-- The comparison `const_frame::operator!=` (frame.cpp:180). -/
def op_ne (self other : const_frame) : Bool := !(self.op_eq other)

/-- The comparison `const_frame::operator<` (frame.cpp:181). -/
def op_lt (self other : const_frame) : Bool := decide (self.get < other.get)

/-- The comparison `const_frame::operator>` (frame.cpp:182). -/
def op_gt (self other : const_frame) : Bool := decide (self.get > other.get)

/-- The accessor `const_frame::pixel_format_desc()` (frame.cpp:183). -/
def pixel_format_desc (self : const_frame) : Except frame_error caspar.core.pixel_format_desc :=
  self.deref.map (fun p => p.desc_)

/-- The accessor `const_frame::image_data(index)` (frame.cpp:184). -/
def image_data (self : const_frame) (index : Nat) : Except frame_error (array Nat) :=
  match self.impl_ with
  | some b => b.val.image_data index
  | none => .error .null_impl

/-- The accessor `const_frame::audio_data()` (frame.cpp:185). -/
def audio_data (self : const_frame) : Except frame_error (array Int) :=
  self.deref.map (fun p => p.audio_data_)

/-- The accessor `const_frame::width()` (frame.cpp:186). -/
def width (self : const_frame) : Except frame_error Nat :=
  match self.impl_ with
  | some b => b.val.width
  | none => .error .null_impl

/-- The accessor `const_frame::height()` (frame.cpp:187). -/
def height (self : const_frame) : Except frame_error Nat :=
  match self.impl_ with
  | some b => b.val.height
  | none => .error .null_impl

/-- The accessor `const_frame::size()` (frame.cpp:188). -/
def size (self : const_frame) : Except frame_error Nat :=
  match self.impl_ with
  | some b => b.val.size
  | none => .error .null_impl

/-- The accessor `const_frame::stream_tag()` (frame.cpp:189). -/
def stream_tag (self : const_frame) : Except frame_error Nat :=
  self.deref.map (fun p => p.tag_)

/-- The accessor `const_frame::geometry()` (frame.cpp:190). -/
def geometry (self : const_frame) : Except frame_error frame_geometry :=
  self.deref.map (fun p => p.geometry_)

/-- The conversion `const_frame::operator bool()` (frame.cpp:191). -/
def to_bool (self : const_frame) : Bool :=
  match self.impl_ with
  | some b => b.val.tag_ != 0
  | none => false

end const_frame

/-! ## Scenario data -/

/-- The descriptor of the spec scenario: one plane, width 2, height 2, size 4. -/
def scenario_desc : pixel_format_desc :=
  { format := pixel_format.format 1, planes := [{ width := 2, height := 2, stride := 2, size := 4 }] }

/-- The mutable frame of the spec scenario: tag 7, one plane holding `[1,2,3,4]`. -/
def scenario_frame : mutable_frame :=
  mutable_frame.ctor 7 [⟨[1, 2, 3, 4]⟩] ⟨[10, -10]⟩ scenario_desc

/-! ## Helper lemmas -/

theorem array.move_fst {T : Type} (a : array T) : (array.move a).1 = a := rfl

theorem array.move_snd {T : Type} (a : array T) : (array.move a).2 = array.empty := rfl

theorem map_move_fst {T : Type} (l : List (array T)) :
    l.map (fun a => (array.move a).1) = l := by
  induction l with
  | nil => rfl
  | cons a t ih => simp [array.move_fst]

theorem vector_at_of_lt {α : Type} (v : List α) (i : Nat) (hi : i < v.length) :
    vector_at v i = .ok (v.get ⟨i, hi⟩) := by
  simp [vector_at, List.getElem?_eq_getElem hi]

theorem vector_at_of_ge {α : Type} (v : List α) (i : Nat) (hi : v.length ≤ i) :
    vector_at v i = .error .out_of_range := by
  simp [vector_at, List.getElem?_eq_none hi]

theorem vector_at_error_iff {α : Type} (v : List α) (i : Nat) :
    vector_at v i = .error .out_of_range ↔ v.length ≤ i := by
  constructor
  · intro h
    by_contra hlt
    rw [vector_at_of_lt v i (Nat.lt_of_not_le hlt)] at h
    cases h
  · exact vector_at_of_ge v i

theorem vector_at_ok_iff {α : Type} (v : List α) (i : Nat) :
    (∃ x, vector_at v i = .ok x) ↔ i < v.length := by
  constructor
  · rintro ⟨x, hx⟩
    by_contra hge
    rw [vector_at_of_ge v i (Nat.le_of_not_lt hge)] at hx
    cases hx
  · intro hi
    exact ⟨_, vector_at_of_lt v i hi⟩

theorem Heap.le_foldr_max (l : List Nat) (a : Nat) (ha : a ∈ l) : a ≤ l.foldr max 0 := by
  induction l with
  | nil => cases ha
  | cons b t ih =>
    simp only [List.foldr_cons]
    rcases List.mem_cons.mp ha with rfl | hmem
    · exact Nat.le_max_left _ _
    · exact Nat.le_trans (ih hmem) (Nat.le_max_right _ _)

theorem Heap.fresh_not_live (h : Heap) : h.fresh ∉ h.live := by
  intro hmem
  have hle := Heap.le_foldr_max h.live h.fresh hmem
  unfold Heap.fresh at hle
  omega

theorem Heap.fresh_ne_of_live (h : Heap) (a : Nat) (ha : a ∈ h.live) : a ≠ h.fresh := by
  intro heq
  exact Heap.fresh_not_live h (heq ▸ ha)

theorem Heap.fresh_pos (h : Heap) : 0 < h.fresh := by
  unfold Heap.fresh
  omega

theorem mutable_frame.impl_of_stream_tag (m : mutable_frame) (t : Nat)
    (ht : m.stream_tag = .ok t) : ∃ o, m.impl_ = some o ∧ o.tag_ = t := by
  cases m with
  | mk impl_ =>
    cases impl_ with
    | none => simp [mutable_frame.stream_tag, mutable_frame.deref, Except.map] at ht
    | some o =>
      refine ⟨o, rfl, ?_⟩
      simpa [mutable_frame.stream_tag, mutable_frame.deref, Except.map] using ht

theorem const_frame.ctor_mutable_frame_some (h : Heap) (o : mutable_frame.impl) :
    const_frame.ctor_mutable_frame h { impl_ := some o } =
      .ok ({ impl_ := some { addr := h.fresh,
                             val := { tag_ := o.tag_
                                      image_data_ := o.image_data_
                                      audio_data_ := o.audio_data_
                                      desc_ := o.desc_
                                      geometry_ := o.geometry_ } } },
           { impl_ := some { o with
               image_data_ := o.image_data_.map (fun _ => array.empty)
               audio_data_ := array.empty } },
           { live := h.fresh :: h.live }) := by
  simp [const_frame.ctor_mutable_frame, const_frame.impl.ctor_mutable_frame, Heap.new_impl,
    map_move_fst, array.move_fst, array.move_snd]

theorem const_frame.op_eq_false_of_ne (a b : const_frame) (h : a.get ≠ b.get) :
    a.op_eq b = false ∧ a.op_ne b = true := by
  simp [const_frame.op_eq, const_frame.op_ne, h]

/-! ## C1 : finalisation preserves the payload -/

/-- C1: for every mutable_frame `m` with a non-null stream tag, finalising it
succeeds, and the resulting const_frame reports the stream tag, pixel format
descriptor, geometry and audio buffer `m` reported just before, and returns
from `image_data(i)` the very buffer `m.image_data(i)` held, for every index
below the plane count of `m`. -/
theorem C1_finalise_preserves_payload (h : Heap) (m : mutable_frame) (t : Nat)
    (htag : m.stream_tag = .ok t) (hnn : t ≠ 0) :
    ∃ f m1 h1, const_frame.ctor_mutable_frame h m = .ok (f, m1, h1) ∧
      f.stream_tag = .ok t ∧
      f.stream_tag = m.stream_tag ∧
      f.pixel_format_desc = m.pixel_format_desc ∧
      f.geometry = m.geometry ∧
      f.audio_data = m.audio_data ∧
      (∀ i b, m.image_data i = .ok b → f.image_data i = .ok b) ∧
      (∀ o, m.impl_ = some o → ∀ i (hi : i < o.image_data_.length),
        m.image_data i = .ok (o.image_data_.get ⟨i, hi⟩) ∧
        f.image_data i = .ok (o.image_data_.get ⟨i, hi⟩)) := by
  obtain ⟨o, ho, hot⟩ := mutable_frame.impl_of_stream_tag m t htag
  cases m with
  | mk impl_ =>
    simp only at ho
    subst ho
    have hne : o.tag_ ≠ 0 := by rw [hot]; exact hnn
    refine ⟨_, _, _, const_frame.ctor_mutable_frame_some h o, ?_, ?_, ?_, ?_, ?_, ?_, ?_⟩
    · simp [const_frame.stream_tag, const_frame.deref, Except.map, hot]
    · simp [const_frame.stream_tag, const_frame.deref, mutable_frame.stream_tag,
        mutable_frame.deref, Except.map]
    · simp [const_frame.pixel_format_desc, const_frame.deref, mutable_frame.pixel_format_desc,
        mutable_frame.deref, Except.map]
    · simp [const_frame.geometry, const_frame.deref, mutable_frame.geometry,
        mutable_frame.deref, Except.map]
    · simp [const_frame.audio_data, const_frame.deref, mutable_frame.audio_data,
        mutable_frame.deref, Except.map]
    · intro i b hb
      simpa [const_frame.image_data, const_frame.impl.image_data, mutable_frame.image_data,
        hne] using hb
    · intro o1 ho1 i hi
      simp only [Option.some.injEq] at ho1
      subst ho1
      simp [const_frame.image_data, const_frame.impl.image_data, mutable_frame.image_data,
        hne, vector_at_of_lt _ i hi]

/-- C1 (witness): the spec scenario.  One 2x2 plane of size 4 holding `[1,2,3,4]`,
tag 7: the finalised frame has width 2, height 2 and plane 0 holds `[1,2,3,4]`. -/
theorem C1_finalise_preserves_payload_witness :
    (scenario_frame.stream_tag = .ok 7 ∧ (7 : Nat) ≠ 0) ∧
    (∃ f m1 h1, const_frame.ctor_mutable_frame ⟨[]⟩ scenario_frame = .ok (f, m1, h1) ∧
      f.stream_tag = .ok 7 ∧
      f.stream_tag = scenario_frame.stream_tag ∧
      f.pixel_format_desc = scenario_frame.pixel_format_desc ∧
      f.geometry = scenario_frame.geometry ∧
      f.audio_data = scenario_frame.audio_data ∧
      (∀ i b, scenario_frame.image_data i = .ok b → f.image_data i = .ok b) ∧
      (∀ o, scenario_frame.impl_ = some o → ∀ i (hi : i < o.image_data_.length),
        scenario_frame.image_data i = .ok (o.image_data_.get ⟨i, hi⟩) ∧
        f.image_data i = .ok (o.image_data_.get ⟨i, hi⟩))) ∧
    (∃ f m1 h1, const_frame.ctor_mutable_frame ⟨[]⟩ scenario_frame = .ok (f, m1, h1) ∧
      f.width = .ok 2 ∧ f.height = .ok 2 ∧ f.size = .ok 4 ∧
      f.image_data 0 = .ok ⟨[1, 2, 3, 4]⟩ ∧
      f.image_data 1 = .error .out_of_range) :=
  ⟨⟨by decide, by decide⟩,
   C1_finalise_preserves_payload ⟨[]⟩ scenario_frame 7 (by decide) (by decide),
   ⟨_, _, _, const_frame.ctor_mutable_frame_some ⟨[]⟩ _, by decide, by decide, by decide,
     by decide, by decide⟩⟩

/-! ## C2 : construction of a mutable_frame -/

/-- C2 (counterexample): a mutable_frame built from one plane buffer and a
descriptor that declares no planes is constructed all the same: it holds its
state, serves the plane it was given and reports the descriptor it was given,
although `image_data.size() = 1` and `desc.planes.size() = 0`. -/
theorem C2_counterexample :
    (mutable_frame.ctor 7 [⟨[1, 2, 3, 4]⟩] ⟨[]⟩ (pixel_format_desc.of_format pixel_format.invalid)).impl_
      = some { image_data_ := [⟨[1, 2, 3, 4]⟩]
               audio_data_ := ⟨[]⟩
               desc_ := { format := pixel_format.invalid, planes := [] }
               tag_ := 7
               geometry_ := frame_geometry.get_default } ∧
    (mutable_frame.ctor 7 [⟨[1, 2, 3, 4]⟩] ⟨[]⟩
      (pixel_format_desc.of_format pixel_format.invalid)).image_data 0 = .ok ⟨[1, 2, 3, 4]⟩ ∧
    (mutable_frame.ctor 7 [⟨[1, 2, 3, 4]⟩] ⟨[]⟩
      (pixel_format_desc.of_format pixel_format.invalid)).pixel_format_desc
      = .ok { format := pixel_format.invalid, planes := [] } ∧
    ¬ (∀ (tag : Nat) (image_data : List (array Nat)) (audio_data : array Int)
        (desc : pixel_format_desc) (o : mutable_frame.impl),
        (mutable_frame.ctor tag image_data audio_data desc).impl_ = some o →
        o.image_data_.length = o.desc_.planes.length) := by
  refine ⟨by decide, by decide, by decide, ?_⟩
  intro hall
  have h := hall 7 [⟨[1, 2, 3, 4]⟩] ⟨[]⟩ (pixel_format_desc.of_format pixel_format.invalid) _ rfl
  revert h
  decide

/-- C2 (amended): constructing a mutable_frame from (tag, image_data, audio_data,
desc) never fails and checks nothing: whatever the two sizes are, the frame
holds its state, reports exactly the tag, audio buffer and descriptor it was
given together with the default geometry, and serves `image_data(i)` from the
plane list it was given, bounds-checked against that list alone. -/
theorem C2_ctor_stores_arguments_unchecked (tag : Nat) (image_data : List (array Nat))
    (audio_data : array Int) (desc : pixel_format_desc) :
    (mutable_frame.ctor tag image_data audio_data desc).impl_.isSome = true ∧
    (mutable_frame.ctor tag image_data audio_data desc).stream_tag = .ok tag ∧
    (mutable_frame.ctor tag image_data audio_data desc).audio_data = .ok audio_data ∧
    (mutable_frame.ctor tag image_data audio_data desc).pixel_format_desc = .ok desc ∧
    (mutable_frame.ctor tag image_data audio_data desc).geometry
      = .ok frame_geometry.get_default ∧
    (∀ i, (mutable_frame.ctor tag image_data audio_data desc).image_data i
      = vector_at image_data i) ∧
    (∀ i, (mutable_frame.ctor tag image_data audio_data desc).image_data i
      = .error .out_of_range ↔ image_data.length ≤ i) := by
  refine ⟨rfl, rfl, rfl, rfl, rfl, fun i => rfl, fun i => ?_⟩
  exact vector_at_error_iff image_data i

/-! ## C3 : const_frame::image_data -/

/-- C3: for every const_frame `f` and every index `i`: if the stream tag of `f` is
null, `image_data(i)` returns the empty (zero-length) buffer and does not
fail, whatever planes `f` holds; if the tag is non-null, `image_data(i)`
returns the `i`-th held plane when `i` is below the number of held planes and
fails with out-of-range exactly when `i` is at or beyond that number. -/
theorem C3_const_image_data (f : const_frame) (b : block) (i : Nat)
    (hf : f.impl_ = some b) :
    f.stream_tag = .ok b.val.tag_ ∧
    (b.val.tag_ = 0 →
      f.image_data i = .ok array.empty ∧ (array.empty : array Nat).size = 0) ∧
    (b.val.tag_ ≠ 0 →
      (∀ hi : i < b.val.image_data_.length,
        f.image_data i = .ok (b.val.image_data_.get ⟨i, hi⟩)) ∧
      (f.image_data i = .error .out_of_range ↔ b.val.image_data_.length ≤ i)) := by
  cases f with
  | mk impl_ =>
    simp only at hf
    subst hf
    refine ⟨rfl, ?_, ?_⟩
    · intro h0
      simp [const_frame.image_data, const_frame.impl.image_data, h0, array.size, array.empty]
    · intro hne
      constructor
      · intro hi
        simp [const_frame.image_data, const_frame.impl.image_data, hne, vector_at_of_lt _ i hi]
      · have himg : (⟨some b⟩ : const_frame).image_data i = vector_at b.val.image_data_ i := by
          simp [const_frame.image_data, const_frame.impl.image_data, hne]
        rw [himg]
        exact vector_at_error_iff _ i

/-- C3 (witness): a null-tag frame that holds a plane still returns the empty
buffer at index 0 and at index 9; the same block under tag 7 returns the
plane at index 0 and fails at index 1. -/
theorem C3_const_image_data_witness :
    ((⟨some ⟨1, ⟨0, [⟨[1, 2, 3, 4]⟩], ⟨[]⟩, scenario_desc, ⟨0⟩⟩⟩⟩ : const_frame).image_data 0
        = .ok array.empty ∧
     (⟨some ⟨1, ⟨0, [⟨[1, 2, 3, 4]⟩], ⟨[]⟩, scenario_desc, ⟨0⟩⟩⟩⟩ : const_frame).image_data 9
        = .ok array.empty) ∧
    ((⟨some ⟨1, ⟨7, [⟨[1, 2, 3, 4]⟩], ⟨[]⟩, scenario_desc, ⟨0⟩⟩⟩⟩ : const_frame).image_data 0
        = .ok ⟨[1, 2, 3, 4]⟩ ∧
     (⟨some ⟨1, ⟨7, [⟨[1, 2, 3, 4]⟩], ⟨[]⟩, scenario_desc, ⟨0⟩⟩⟩⟩ : const_frame).image_data 1
        = .error .out_of_range) :=
  ⟨⟨((C3_const_image_data ⟨some ⟨1, ⟨0, [⟨[1, 2, 3, 4]⟩], ⟨[]⟩, scenario_desc, ⟨0⟩⟩⟩⟩ _ 0
        rfl).2.1 rfl).1,
    ((C3_const_image_data ⟨some ⟨1, ⟨0, [⟨[1, 2, 3, 4]⟩], ⟨[]⟩, scenario_desc, ⟨0⟩⟩⟩⟩ _ 9
        rfl).2.1 rfl).1⟩,
   ⟨((C3_const_image_data ⟨some ⟨1, ⟨7, [⟨[1, 2, 3, 4]⟩], ⟨[]⟩, scenario_desc, ⟨0⟩⟩⟩⟩ _ 0
        rfl).2.2 (by decide)).1 (by decide),
    ((C3_const_image_data ⟨some ⟨1, ⟨7, [⟨[1, 2, 3, 4]⟩], ⟨[]⟩, scenario_desc, ⟨0⟩⟩⟩⟩ _ 1
        rfl).2.2 (by decide)).2.mpr (by decide)⟩⟩

/-! ## C4 : copying a const_frame -/

/-- C4: copying a const_frame `f1`, by copy construction or by the assignment
`f2 = f1` (whatever `f2` held before), yields a frame holding the handle of
`f1`, hence the same storage block: `f1 == f2` is true, `f1 != f2` is false
and every read accessor returns on the copy what it returns on `f1`. -/
theorem C4_copy_shares_storage (f1 f0 : const_frame) :
    ((const_frame.ctor_copy f1).impl_ = f1.impl_ ∧
     f1.op_eq (const_frame.ctor_copy f1) = true ∧
     f1.op_ne (const_frame.ctor_copy f1) = false ∧
     (const_frame.ctor_copy f1).stream_tag = f1.stream_tag ∧
     (const_frame.ctor_copy f1).pixel_format_desc = f1.pixel_format_desc ∧
     (const_frame.ctor_copy f1).geometry = f1.geometry ∧
     (const_frame.ctor_copy f1).audio_data = f1.audio_data ∧
     (∀ i, (const_frame.ctor_copy f1).image_data i = f1.image_data i) ∧
     (const_frame.ctor_copy f1).width = f1.width ∧
     (const_frame.ctor_copy f1).height = f1.height ∧
     (const_frame.ctor_copy f1).size = f1.size ∧
     (const_frame.ctor_copy f1).to_bool = f1.to_bool) ∧
    ((f0.assign (const_frame.ctor_copy f1)).impl_ = f1.impl_ ∧
     f1.op_eq (f0.assign (const_frame.ctor_copy f1)) = true ∧
     f1.op_ne (f0.assign (const_frame.ctor_copy f1)) = false ∧
     (f0.assign (const_frame.ctor_copy f1)).stream_tag = f1.stream_tag ∧
     (f0.assign (const_frame.ctor_copy f1)).pixel_format_desc = f1.pixel_format_desc ∧
     (f0.assign (const_frame.ctor_copy f1)).geometry = f1.geometry ∧
     (f0.assign (const_frame.ctor_copy f1)).audio_data = f1.audio_data ∧
     (∀ i, (f0.assign (const_frame.ctor_copy f1)).image_data i = f1.image_data i) ∧
     (f0.assign (const_frame.ctor_copy f1)).width = f1.width ∧
     (f0.assign (const_frame.ctor_copy f1)).height = f1.height ∧
     (f0.assign (const_frame.ctor_copy f1)).size = f1.size ∧
     (f0.assign (const_frame.ctor_copy f1)).to_bool = f1.to_bool) := by
  have hc : const_frame.ctor_copy f1 = f1 := by cases f1; rfl
  have ha : f0.assign (const_frame.ctor_copy f1) = f1 := by cases f1; rfl
  rw [ha, hc]
  simp [const_frame.op_eq, const_frame.op_ne]

/-! ## C5 : separately constructed frames are distinct -/

/-- C5: a const_frame whose storage block is alive compares not equal to the
result of any later construction, whichever allocating constructor is used,
because `new impl` never returns the address of a live block; each
construction leaves its own block alive; and so two mutable_frames finalised
one after the other, even with identical tag, format, planes and audio, give
frames that are `!=` and not `==`. -/
theorem C5_separate_constructions_differ (h : Heap) (f1 : const_frame)
    (halive : f1.get ∈ h.live) :
    (∀ tag, f1.op_eq (const_frame.ctor_tag h tag).1 = false ∧
            f1.op_ne (const_frame.ctor_tag h tag).1 = true ∧
            (const_frame.ctor_tag h tag).1.get ∈ (const_frame.ctor_tag h tag).2.live ∧
            f1.get ∈ (const_frame.ctor_tag h tag).2.live) ∧
    (∀ tag image_data audio_data desc,
        f1.op_eq (const_frame.ctor_data h tag image_data audio_data desc).1 = false ∧
        f1.op_ne (const_frame.ctor_data h tag image_data audio_data desc).1 = true ∧
        (const_frame.ctor_data h tag image_data audio_data desc).1.get
          ∈ (const_frame.ctor_data h tag image_data audio_data desc).2.live ∧
        f1.get ∈ (const_frame.ctor_data h tag image_data audio_data desc).2.live) ∧
    (∀ m f2 m1 h1, const_frame.ctor_mutable_frame h m = .ok (f2, m1, h1) →
        f1.op_eq f2 = false ∧ f1.op_ne f2 = true ∧ f2.op_eq f1 = false ∧
        f2.get ∈ h1.live ∧ f1.get ∈ h1.live) ∧
    (∀ (h0 : Heap) (o : mutable_frame.impl), ∃ g1 g2 m1 m2 h1 h2,
        const_frame.ctor_mutable_frame h0 { impl_ := some o } = .ok (g1, m1, h1) ∧
        const_frame.ctor_mutable_frame h1 { impl_ := some o } = .ok (g2, m2, h2) ∧
        g1.deref = g2.deref ∧
        g1.op_eq g2 = false ∧ g1.op_ne g2 = true) := by
  have hne := Heap.fresh_ne_of_live h f1.get halive
  refine ⟨?_, ?_, ?_, ?_⟩
  · intro tag
    have hget : (const_frame.ctor_tag h tag).1.get = h.fresh := rfl
    have hlive : (const_frame.ctor_tag h tag).2.live = h.fresh :: h.live := rfl
    rw [hlive]
    refine ⟨(const_frame.op_eq_false_of_ne _ _ (hget ▸ hne)).1,
      (const_frame.op_eq_false_of_ne _ _ (hget ▸ hne)).2, ?_, List.mem_cons_of_mem _ halive⟩
    rw [hget]
    exact List.mem_cons_self _ _
  · intro tag image_data audio_data desc
    have hget : (const_frame.ctor_data h tag image_data audio_data desc).1.get = h.fresh := rfl
    have hlive : (const_frame.ctor_data h tag image_data audio_data desc).2.live
        = h.fresh :: h.live := rfl
    rw [hlive]
    refine ⟨(const_frame.op_eq_false_of_ne _ _ (hget ▸ hne)).1,
      (const_frame.op_eq_false_of_ne _ _ (hget ▸ hne)).2, ?_, List.mem_cons_of_mem _ halive⟩
    rw [hget]
    exact List.mem_cons_self _ _
  · intro m f2 m1 h1 hfin
    cases m with
    | mk impl_ =>
      cases impl_ with
      | none =>
        simp [const_frame.ctor_mutable_frame, const_frame.impl.ctor_mutable_frame] at hfin
      | some o =>
        rw [const_frame.ctor_mutable_frame_some] at hfin
        simp only [Except.ok.injEq, Prod.mk.injEq] at hfin
        obtain ⟨hf2, -, hh1⟩ := hfin
        subst hf2
        subst hh1
        have hne2 : f1.get ≠ (const_frame.mk (some ⟨h.fresh, ⟨o.tag_, o.image_data_,
            o.audio_data_, o.desc_, o.geometry_⟩⟩)).get := hne
        exact ⟨(const_frame.op_eq_false_of_ne _ _ hne2).1,
          (const_frame.op_eq_false_of_ne _ _ hne2).2,
          (const_frame.op_eq_false_of_ne _ _ (Ne.symm hne2)).1,
          List.mem_cons_self _ _, List.mem_cons_of_mem _ halive⟩
  · intro h0 o
    have hfr : h0.fresh ≠ (Heap.mk (h0.fresh :: h0.live)).fresh :=
      Heap.fresh_ne_of_live (Heap.mk (h0.fresh :: h0.live)) h0.fresh (List.mem_cons_self _ _)
    refine ⟨_, _, _, _, _, _, const_frame.ctor_mutable_frame_some h0 o,
      const_frame.ctor_mutable_frame_some _ o, rfl, ?_⟩
    exact const_frame.op_eq_false_of_ne _ _ hfr

/-- C5 (witness): the scenario frame finalised twice from the same contents: the
first result is alive when the second is built, and the two compare not equal
although they hold the same planes. -/
theorem C5_separate_constructions_differ_witness :
    (∀ f2 m1 h1,
        const_frame.ctor_mutable_frame ⟨[1]⟩ scenario_frame = .ok (f2, m1, h1) →
        (⟨some ⟨1, const_frame.impl.ctor_data 7 [⟨[1, 2, 3, 4]⟩] ⟨[10, -10]⟩ scenario_desc⟩⟩
          : const_frame).op_eq f2 = false) ∧
    (∃ f2 m1 h1,
        const_frame.ctor_mutable_frame ⟨[1]⟩ scenario_frame = .ok (f2, m1, h1) ∧
        f2.image_data 0 = .ok ⟨[1, 2, 3, 4]⟩ ∧
        (⟨some ⟨1, const_frame.impl.ctor_data 7 [⟨[1, 2, 3, 4]⟩] ⟨[10, -10]⟩ scenario_desc⟩⟩
          : const_frame).image_data 0 = .ok ⟨[1, 2, 3, 4]⟩) :=
  ⟨fun f2 m1 h1 hfin =>
    ((C5_separate_constructions_differ ⟨[1]⟩
      ⟨some ⟨1, const_frame.impl.ctor_data 7 [⟨[1, 2, 3, 4]⟩] ⟨[10, -10]⟩ scenario_desc⟩⟩
      (by decide)).2.2.1 scenario_frame f2 m1 h1 hfin).1,
   ⟨_, _, _, const_frame.ctor_mutable_frame_some ⟨[1]⟩ _, by decide, by decide⟩⟩

/-! ## C6 : ordering of const_frames -/

/-- C6: over const_frames `operator<` is a strict total order that agrees with
storage identity: it is irreflexive and transitive, for any two frames
exactly one of `a < b`, `a == b`, `b < a` holds, `a > b` holds exactly when
`b < a`, and `a == b` holds exactly when both hold the same block address. -/
theorem C6_lt_strict_total_order (a b c : const_frame) :
    a.op_lt a = false ∧
    (a.op_lt b = true → b.op_lt c = true → a.op_lt c = true) ∧
    ((a.op_lt b = true ∧ a.op_eq b = false ∧ b.op_lt a = false) ∨
     (a.op_lt b = false ∧ a.op_eq b = true ∧ b.op_lt a = false) ∨
     (a.op_lt b = false ∧ a.op_eq b = false ∧ b.op_lt a = true)) ∧
    (a.op_gt b = true ↔ b.op_lt a = true) ∧
    (a.op_eq b = true ↔ a.get = b.get) ∧
    (a.op_ne b = true ↔ a.get ≠ b.get) := by
  simp only [const_frame.op_lt, const_frame.op_gt, const_frame.op_eq, const_frame.op_ne,
    decide_eq_true_eq, decide_eq_false_iff_not, beq_iff_eq, beq_eq_false_iff_ne, ne_eq,
    Bool.not_eq_true', Bool.not_eq_eq_eq_not, Bool.not_true, gt_iff_lt]
  refine ⟨by omega, by omega, ?_, by simp, by simp, by simp⟩
  rcases Nat.lt_trichotomy a.get b.get with hlt | heq | hgt
  · left
    omega
  · right; left
    omega
  · right; right
    omega

/-- C6 (witness): frames at block addresses 1, 2 and 3: `1 < 2`, `2 < 3`, hence
`1 < 3`. -/
theorem C6_lt_strict_total_order_witness :
    (⟨some ⟨1, const_frame.impl.ctor_tag 7⟩⟩ : const_frame).op_lt
      ⟨some ⟨3, const_frame.impl.ctor_tag 7⟩⟩ = true :=
  (C6_lt_strict_total_order ⟨some ⟨1, const_frame.impl.ctor_tag 7⟩⟩
    ⟨some ⟨2, const_frame.impl.ctor_tag 7⟩⟩ ⟨some ⟨3, const_frame.impl.ctor_tag 7⟩⟩).2.1
    (by decide) (by decide)

/-! ## C7 : image_data on the empty frame -/

/-- C7 (counterexample): on the empty frame `const_frame(tag)` with the non-null
tag 7, `image_data(0)` fails with out-of-range instead of returning an empty
buffer. -/
theorem C7_counterexample :
    (const_frame.ctor_tag ⟨[]⟩ 7).1.image_data 0 = .error .out_of_range ∧
    (const_frame.ctor_tag ⟨[]⟩ 7).1.image_data 0 ≠ .ok array.empty := by
  constructor <;> decide

/-- C7 (amended): for the null tag and every index `i`, `image_data(i)` on the empty
frame `const_frame(tag)` returns the zero-length buffer without failing; for
a non-null tag the empty frame holds no planes and `image_data(i)` fails with
out-of-range for every `i`. -/
theorem C7_empty_frame_image_data (h : Heap) (i : Nat) :
    ((const_frame.ctor_tag h 0).1.image_data i = .ok array.empty ∧
      (array.empty : array Nat).size = 0) ∧
    (∀ tag, tag ≠ 0 → (const_frame.ctor_tag h tag).1.image_data i = .error .out_of_range) := by
  refine ⟨⟨rfl, rfl⟩, ?_⟩
  intro tag htag
  simp [const_frame.ctor_tag, Heap.new_impl, const_frame.image_data,
    const_frame.impl.image_data, const_frame.impl.ctor_tag, htag, vector_at]

/-- C7 (witness): tag 7, index 3, on a heap with one live block. -/
theorem C7_empty_frame_image_data_witness :
    (7 : Nat) ≠ 0 ∧ (const_frame.ctor_tag ⟨[1]⟩ 7).1.image_data 3 = .error .out_of_range :=
  ⟨by decide, (C7_empty_frame_image_data ⟨[1]⟩ 3).2 7 (by decide)⟩

/-! ## The empty frame: width, height and size -/

theorem const_frame.ctor_tag_dimensions (h : Heap) (tag : Nat) :
    (tag = 0 →
      (const_frame.ctor_tag h tag).1.width = .ok 0 ∧
      (const_frame.ctor_tag h tag).1.height = .ok 0 ∧
      (const_frame.ctor_tag h tag).1.size = .ok 0) ∧
    (tag ≠ 0 → ∀ d, (const_frame.ctor_tag h tag).1.pixel_format_desc = .ok d →
      (const_frame.ctor_tag h tag).1.width = (vector_at d.planes 0).map (fun pl => pl.width) ∧
      (const_frame.ctor_tag h tag).1.height = (vector_at d.planes 0).map (fun pl => pl.height) ∧
      (const_frame.ctor_tag h tag).1.size = (vector_at d.planes 0).map (fun pl => pl.size)) := by
  constructor
  · intro h0
    subst h0
    exact ⟨rfl, rfl, rfl⟩
  · intro hne d hd
    have hd2 : d = (const_frame.impl.ctor_tag tag).desc_ := by
      simp only [const_frame.pixel_format_desc, const_frame.deref, const_frame.ctor_tag,
        Heap.new_impl, Except.map, Except.ok.injEq] at hd
      exact hd.symm
    subst hd2
    simp [const_frame.ctor_tag, Heap.new_impl, const_frame.width, const_frame.height,
      const_frame.size, const_frame.impl.width, const_frame.impl.height, const_frame.impl.size,
      const_frame.impl.ctor_tag, hne]

/-! ## C9 : conversion to bool -/

/-- C9: a const_frame that holds storage converts to true exactly when its
`stream_tag()` is non-null; in particular `const_frame(tag)` converts to true
iff `tag != null`, a finalised frame (finalisation of a frame that reports a
tag succeeds) converts to true iff the tag of the source mutable_frame was
non-null, and a frame that holds no storage converts to false. -/
theorem C9_bool_iff_tag_non_null (h : Heap) :
    (∀ (f : const_frame) (b : block), f.impl_ = some b →
      (f.to_bool = true ↔ ∃ t, f.stream_tag = .ok t ∧ t ≠ 0)) ∧
    (∀ tag, (const_frame.ctor_tag h tag).1.to_bool = true ↔ tag ≠ 0) ∧
    (∀ (m : mutable_frame) (t : Nat), m.stream_tag = .ok t →
      ∃ f m1 h1, const_frame.ctor_mutable_frame h m = .ok (f, m1, h1) ∧
        (f.to_bool = true ↔ t ≠ 0)) ∧
    (const_frame.mk none).to_bool = false := by
  refine ⟨?_, ?_, ?_, rfl⟩
  · intro f b hf
    cases f with
    | mk impl_ =>
      simp only at hf
      subst hf
      simp [const_frame.to_bool, const_frame.stream_tag, const_frame.deref, Except.map]
  · intro tag
    simp [const_frame.to_bool, const_frame.ctor_tag, Heap.new_impl, const_frame.impl.ctor_tag]
  · intro m t ht
    obtain ⟨o, ho, hot⟩ := mutable_frame.impl_of_stream_tag m t ht
    cases m with
    | mk impl_ =>
      simp only at ho
      subst ho
      refine ⟨_, _, _, const_frame.ctor_mutable_frame_some h o, ?_⟩
      simp [const_frame.to_bool, hot]

/-- C9 (witness): the scenario frame (tag 7) finalised converts to true; the same
frame built with the null tag converts to false. -/
theorem C9_bool_iff_tag_non_null_witness :
    (∃ f m1 h1, const_frame.ctor_mutable_frame ⟨[]⟩ scenario_frame = .ok (f, m1, h1) ∧
      (f.to_bool = true ↔ 7 ≠ 0)) ∧
    (∃ f m1 h1, const_frame.ctor_mutable_frame ⟨[]⟩
        (mutable_frame.ctor 0 [⟨[1, 2, 3, 4]⟩] ⟨[]⟩ scenario_desc) = .ok (f, m1, h1) ∧
      (f.to_bool = true ↔ 0 ≠ 0)) :=
  ⟨(C9_bool_iff_tag_non_null ⟨[]⟩).2.2.1 scenario_frame 7 (by decide),
   (C9_bool_iff_tag_non_null ⟨[]⟩).2.2.1
     (mutable_frame.ctor 0 [⟨[1, 2, 3, 4]⟩] ⟨[]⟩ scenario_desc) 0 (by decide)⟩

/-! ## C10 : width, height and size of a const_frame -/

/-- C10: for every const_frame: when its tag is null, `width()`, `height()` and
`size()` are all 0 whatever descriptor and planes it holds; when its tag is
non-null, each call is the checked read of plane 0 of its pixel format
descriptor, so it returns that plane's width, height and size. -/
theorem C10_const_dimensions (f : const_frame) (b : block) (hf : f.impl_ = some b) :
    f.stream_tag = .ok b.val.tag_ ∧
    f.pixel_format_desc = .ok b.val.desc_ ∧
    (b.val.tag_ = 0 → f.width = .ok 0 ∧ f.height = .ok 0 ∧ f.size = .ok 0) ∧
    (b.val.tag_ ≠ 0 →
      (f.width = (vector_at b.val.desc_.planes 0).map (fun pl => pl.width) ∧
       f.height = (vector_at b.val.desc_.planes 0).map (fun pl => pl.height) ∧
       f.size = (vector_at b.val.desc_.planes 0).map (fun pl => pl.size)) ∧
      (∀ p, b.val.desc_.planes[0]? = some p →
        f.width = .ok p.width ∧ f.height = .ok p.height ∧ f.size = .ok p.size)) := by
  cases f with
  | mk impl_ =>
    simp only at hf
    subst hf
    refine ⟨rfl, rfl, ?_, ?_⟩
    · intro h0
      simp [const_frame.width, const_frame.height, const_frame.size, const_frame.impl.width,
        const_frame.impl.height, const_frame.impl.size, h0]
    · intro hne
      refine ⟨?_, ?_⟩
      · simp [const_frame.width, const_frame.height, const_frame.size, const_frame.impl.width,
          const_frame.impl.height, const_frame.impl.size, hne]
      · intro p hp
        simp [const_frame.width, const_frame.height, const_frame.size, const_frame.impl.width,
          const_frame.impl.height, const_frame.impl.size, hne, vector_at, hp, Except.map]

/-- C10 (witness): a block with the scenario descriptor (plane 0 is 2x2, size 4):
under the null tag the three calls give 0, under tag 7 they give 2, 2 and 4. -/
theorem C10_const_dimensions_witness :
    ((⟨some ⟨1, ⟨0, [⟨[1, 2, 3, 4]⟩], ⟨[]⟩, scenario_desc, ⟨0⟩⟩⟩⟩ : const_frame).width = .ok 0 ∧
     (⟨some ⟨1, ⟨0, [⟨[1, 2, 3, 4]⟩], ⟨[]⟩, scenario_desc, ⟨0⟩⟩⟩⟩ : const_frame).height = .ok 0 ∧
     (⟨some ⟨1, ⟨0, [⟨[1, 2, 3, 4]⟩], ⟨[]⟩, scenario_desc, ⟨0⟩⟩⟩⟩ : const_frame).size = .ok 0) ∧
    ((⟨some ⟨1, ⟨7, [⟨[1, 2, 3, 4]⟩], ⟨[]⟩, scenario_desc, ⟨0⟩⟩⟩⟩ : const_frame).width = .ok 2 ∧
     (⟨some ⟨1, ⟨7, [⟨[1, 2, 3, 4]⟩], ⟨[]⟩, scenario_desc, ⟨0⟩⟩⟩⟩ : const_frame).height = .ok 2 ∧
     (⟨some ⟨1, ⟨7, [⟨[1, 2, 3, 4]⟩], ⟨[]⟩, scenario_desc, ⟨0⟩⟩⟩⟩ : const_frame).size = .ok 4) :=
  ⟨(C10_const_dimensions ⟨some ⟨1, ⟨0, [⟨[1, 2, 3, 4]⟩], ⟨[]⟩, scenario_desc, ⟨0⟩⟩⟩⟩ _
      rfl).2.2.1 rfl,
   ((C10_const_dimensions ⟨some ⟨1, ⟨7, [⟨[1, 2, 3, 4]⟩], ⟨[]⟩, scenario_desc, ⟨0⟩⟩⟩⟩ _
      rfl).2.2.2 (by decide)).2 ⟨2, 2, 2, 4⟩ rfl⟩

/-! ## C11 : mutable_frame::image_data -/

/-- C11: for every mutable_frame `m` that holds its state and every index `i`, the
read-only and the writable `image_data(i)` both return the `i`-th plane `m`
holds when `i` is below the number of held planes, and fail with out-of-range
exactly when `i` is at or beyond that number; a store through the writable
accessor fails in exactly the same case, replaces plane `i` alone when it
succeeds, and leaves `m` as it was when it fails. -/
theorem C11_mutable_image_data (m : mutable_frame) (o : mutable_frame.impl) (i : Nat)
    (hm : m.impl_ = some o) :
    (∀ hi : i < o.image_data_.length,
      m.image_data i = .ok (o.image_data_.get ⟨i, hi⟩) ∧
      m.image_data_mut i = .ok (o.image_data_.get ⟨i, hi⟩)) ∧
    (m.image_data i = .error .out_of_range ↔ o.image_data_.length ≤ i) ∧
    (m.image_data_mut i = .error .out_of_range ↔ o.image_data_.length ≤ i) ∧
    (∀ v, (m.store_image_data i v).1 = .error .out_of_range ↔ o.image_data_.length ≤ i) ∧
    (∀ v, o.image_data_.length ≤ i → (m.store_image_data i v).2 = m) ∧
    (∀ v, i < o.image_data_.length →
      (m.store_image_data i v).1 = .ok () ∧
      (m.store_image_data i v).2.image_data i = .ok v ∧
      (∀ j, j ≠ i → (m.store_image_data i v).2.image_data j = m.image_data j)) := by
  cases m with
  | mk impl_ =>
    simp only at hm
    subst hm
    refine ⟨?_, vector_at_error_iff _ i, vector_at_error_iff _ i, ?_, ?_, ?_⟩
    · intro hi
      exact ⟨vector_at_of_lt _ i hi, vector_at_of_lt _ i hi⟩
    · intro v
      by_cases hi : i < o.image_data_.length
      · simp [mutable_frame.store_image_data, mutable_frame.set_image_data, hi]
      · simp [mutable_frame.store_image_data, mutable_frame.set_image_data, hi]
        omega
    · intro v hge
      have hi : ¬ i < o.image_data_.length := by omega
      simp [mutable_frame.store_image_data, mutable_frame.set_image_data, hi]
    · intro v hi
      refine ⟨?_, ?_, ?_⟩
      · simp [mutable_frame.store_image_data, mutable_frame.set_image_data, hi]
      · simp [mutable_frame.store_image_data, mutable_frame.set_image_data, hi,
          mutable_frame.image_data, vector_at]
      · intro j hj
        simp [mutable_frame.store_image_data, mutable_frame.set_image_data, hi,
          mutable_frame.image_data, vector_at, List.getElem?_set_ne (Ne.symm hj)]

/-- C11 (witness): the scenario frame holds one plane: index 0 returns `[1,2,3,4]`
from both accessors, index 1 fails from both, and a failing store at index 1
leaves the frame as it was. -/
theorem C11_mutable_image_data_witness :
    (scenario_frame.image_data 0 = .ok ⟨[1, 2, 3, 4]⟩ ∧
     scenario_frame.image_data_mut 0 = .ok ⟨[1, 2, 3, 4]⟩) ∧
    scenario_frame.image_data 1 = .error .out_of_range ∧
    scenario_frame.image_data_mut 1 = .error .out_of_range ∧
    (scenario_frame.store_image_data 1 ⟨[9]⟩).2 = scenario_frame :=
  ⟨(C11_mutable_image_data scenario_frame _ 0 rfl).1 (by decide),
   (C11_mutable_image_data scenario_frame _ 1 rfl).2.1.mpr (by decide),
   (C11_mutable_image_data scenario_frame _ 1 rfl).2.2.1.mpr (by decide),
   (C11_mutable_image_data scenario_frame _ 1 rfl).2.2.2.2.1 ⟨[9]⟩ (by decide)⟩

/-! ## C12 : what finalisation leaves in the source -/

/-- C13 (counterexample): a mutable_frame move-assigned to itself is not left
empty: the store holding the scenario frame at position 0 is unchanged by
the assignment of position 0 to position 0, and the frame still holds its
state and reports tag 7. -/
theorem C13_counterexample :
    mutable_frame.assign [scenario_frame] 0 0 = [scenario_frame] ∧
    (mutable_frame.assign [scenario_frame] 0 0)[0]? ≠ some { impl_ := none } ∧
    ((mutable_frame.assign [scenario_frame] 0 0)[0]?).map (fun m => m.stream_tag)
      = some (.ok 7) := by
  refine ⟨?_, ?_, ?_⟩ <;> decide

/-- C13 (amended): move construction, and move assignment between two distinct
mutable_frames, hand the whole state to the destination: it holds exactly the
handle the source held, so it reports the stream tag, format, geometry,
planes and audio the source reported before the move, and the source is left
with an empty handle, holding no state; every other frame is untouched, and a
mutable_frame move-assigned to itself keeps its state. -/
theorem C13_move_transfers_state (other : mutable_frame) (frames : List mutable_frame)
    (dst src : Nat) (moved : mutable_frame) (hsrc : frames[src]? = some moved)
    (hdst : dst < frames.length) :
    ((mutable_frame.ctor_move other).1.impl_ = other.impl_ ∧
     (mutable_frame.ctor_move other).1.stream_tag = other.stream_tag ∧
     (mutable_frame.ctor_move other).1.pixel_format_desc = other.pixel_format_desc ∧
     (mutable_frame.ctor_move other).1.geometry = other.geometry ∧
     (mutable_frame.ctor_move other).1.audio_data = other.audio_data ∧
     (∀ i, (mutable_frame.ctor_move other).1.image_data i = other.image_data i) ∧
     (mutable_frame.ctor_move other).1.width = other.width ∧
     (mutable_frame.ctor_move other).1.height = other.height ∧
     (mutable_frame.ctor_move other).2.impl_ = none) ∧
    ((mutable_frame.assign frames dst src)[dst]? = some moved ∧
     (∀ d, (mutable_frame.assign frames dst src)[dst]? = some d →
       d.impl_ = moved.impl_ ∧
       d.stream_tag = moved.stream_tag ∧
       d.pixel_format_desc = moved.pixel_format_desc ∧
       d.geometry = moved.geometry ∧
       d.audio_data = moved.audio_data ∧
       (∀ i, d.image_data i = moved.image_data i) ∧
       d.width = moved.width ∧
       d.height = moved.height)) ∧
    (dst ≠ src → (mutable_frame.assign frames dst src)[src]? = some { impl_ := none }) ∧
    (dst = src → mutable_frame.assign frames dst src = frames) ∧
    (∀ k, k ≠ dst → k ≠ src → (mutable_frame.assign frames dst src)[k]? = frames[k]?) ∧
    (mutable_frame.assign frames dst src).length = frames.length := by
  have hc : (mutable_frame.ctor_move other).1 = other := by cases other; rfl
  have heta : ({ impl_ := moved.impl_ } : mutable_frame) = moved := by cases moved; rfl
  have hassign : mutable_frame.assign frames dst src
      = (frames.set src { impl_ := none }).set dst moved := by
    simp only [mutable_frame.assign, hsrc, heta]
  have hsrclt : src < frames.length := by
    by_contra hge
    rw [List.getElem?_eq_none (Nat.le_of_not_lt hge)] at hsrc
    cases hsrc
  have hdstget : (mutable_frame.assign frames dst src)[dst]? = some moved := by
    rw [hassign]
    simp [List.getElem?_set, hdst]
  refine ⟨?_, ⟨hdstget, ?_⟩, ?_, ?_, ?_, ?_⟩
  · rw [hc]
    exact ⟨rfl, rfl, rfl, rfl, rfl, fun _ => rfl, rfl, rfl, rfl⟩
  · intro d hd
    rw [hdstget] at hd
    cases hd
    exact ⟨rfl, rfl, rfl, rfl, rfl, fun _ => rfl, rfl, rfl⟩
  · intro hne
    rw [hassign]
    simp [List.getElem?_set, hne, hsrclt]
  · intro heq
    subst heq
    rw [hassign]
    apply List.ext_getElem?
    intro k
    by_cases hk : dst = k
    · subst hk
      simp [List.getElem?_set, hdst, hsrc]
    · simp [List.getElem?_set, hk]
  · intro k hkd hks
    rw [hassign]
    simp [List.getElem?_set, Ne.symm hkd, Ne.symm hks]
  · rw [hassign]
    simp

/-- C13 (witness): two frames in a store, the scenario frame at position 1 moved
into position 0: position 0 then holds the scenario frame and position 1 is
empty. -/
theorem C13_move_transfers_state_witness :
    (mutable_frame.assign [mutable_frame.ctor 3 [] ⟨[]⟩ scenario_desc, scenario_frame] 0 1)[0]?
      = some scenario_frame ∧
    (mutable_frame.assign [mutable_frame.ctor 3 [] ⟨[]⟩ scenario_desc, scenario_frame] 0 1)[1]?
      = some { impl_ := none } :=
  ⟨(C13_move_transfers_state scenario_frame
      [mutable_frame.ctor 3 [] ⟨[]⟩ scenario_desc, scenario_frame] 0 1 scenario_frame
      rfl (by decide)).2.1.1,
   (C13_move_transfers_state scenario_frame
      [mutable_frame.ctor 3 [] ⟨[]⟩ scenario_desc, scenario_frame] 0 1 scenario_frame
      rfl (by decide)).2.2.1 (by decide)⟩

/-! ## C14 : the canonical empty frame -/

/-- C14: for every tag, `const_frame(tag)` is the canonical empty frame for that
tag: `stream_tag()` is the tag, `pixel_format_desc()` is the invalid
descriptor, `geometry()` is the process-wide default geometry, `audio_data()`
is empty and the frame holds no planes. -/
theorem C14_ctor_tag_canonical_empty (h : Heap) (tag : Nat) :
    (const_frame.ctor_tag h tag).1.stream_tag = .ok tag ∧
    (const_frame.ctor_tag h tag).1.pixel_format_desc
      = .ok (pixel_format_desc.of_format pixel_format.invalid) ∧
    (const_frame.ctor_tag h tag).1.geometry = .ok frame_geometry.get_default ∧
    (const_frame.ctor_tag h tag).1.audio_data = .ok array.empty ∧
    (array.empty : array Int).size = 0 ∧
    (const_frame.ctor_tag h tag).1.deref.map (fun p => p.image_data_) = .ok [] ∧
    (const_frame.ctor_tag h tag).1.deref.map (fun p => p.image_data_.length) = .ok 0 :=
  ⟨rfl, rfl, rfl, rfl, rfl, rfl, rfl⟩

/-! ## C15 : the geometry of a mutable_frame -/

/-- C15: a newly constructed mutable_frame has `geometry()` equal to the
process-wide default geometry; overwriting it through the writable
`geometry()` accessor succeeds, after which `geometry()` returns the new
value while the stream tag, format, planes and audio are unchanged, and the
const_frame the frame is then finalised into reports that new value. -/
theorem C15_geometry_overwrite (h : Heap) (tag : Nat) (image_data : List (array Nat))
    (audio_data : array Int) (desc : pixel_format_desc) (g : frame_geometry) :
    (mutable_frame.ctor tag image_data audio_data desc).geometry
      = .ok frame_geometry.get_default ∧
    ∃ m1, (mutable_frame.ctor tag image_data audio_data desc).set_geometry g = .ok m1 ∧
      m1.geometry = .ok g ∧
      m1.stream_tag = (mutable_frame.ctor tag image_data audio_data desc).stream_tag ∧
      m1.pixel_format_desc
        = (mutable_frame.ctor tag image_data audio_data desc).pixel_format_desc ∧
      m1.audio_data = (mutable_frame.ctor tag image_data audio_data desc).audio_data ∧
      (∀ i, m1.image_data i
        = (mutable_frame.ctor tag image_data audio_data desc).image_data i) ∧
      ∃ f m2 h1, const_frame.ctor_mutable_frame h m1 = .ok (f, m2, h1) ∧
        f.geometry = .ok g :=
  ⟨rfl, _, rfl, rfl, rfl, rfl, rfl, fun _ => rfl, _, _, _,
    const_frame.ctor_mutable_frame_some h _, rfl⟩

/-! ## C16 : finalising a frame whose tag is null -/

/-- C16: finalising a mutable_frame whose stream tag is null succeeds and hides its
image payload: whatever planes and descriptor it holds, the resulting
const_frame returns the empty buffer from `image_data(i)` for every `i` and 0
from `width()`, `height()` and `size()`, while `audio_data()`,
`pixel_format_desc()` and `geometry()` return the values of the source and
conversion to bool is false. -/
theorem C16_null_tag_hides_payload (h : Heap) (m : mutable_frame)
    (htag : m.stream_tag = .ok 0) :
    ∃ f m1 h1, const_frame.ctor_mutable_frame h m = .ok (f, m1, h1) ∧
      (∀ i, f.image_data i = .ok array.empty) ∧
      f.width = .ok 0 ∧ f.height = .ok 0 ∧ f.size = .ok 0 ∧
      f.audio_data = m.audio_data ∧
      f.pixel_format_desc = m.pixel_format_desc ∧
      f.geometry = m.geometry ∧
      f.stream_tag = .ok 0 ∧
      f.to_bool = false := by
  obtain ⟨o, ho, hot⟩ := mutable_frame.impl_of_stream_tag m 0 htag
  cases m with
  | mk impl_ =>
    simp only at ho
    subst ho
    refine ⟨_, _, _, const_frame.ctor_mutable_frame_some h o, ?_, ?_, ?_, ?_, rfl, rfl, rfl, ?_, ?_⟩
    · intro i
      simp [const_frame.image_data, const_frame.impl.image_data, hot]
    · simp [const_frame.width, const_frame.impl.width, hot]
    · simp [const_frame.height, const_frame.impl.height, hot]
    · simp [const_frame.size, const_frame.impl.size, hot]
    · simp [const_frame.stream_tag, const_frame.deref, Except.map, hot]
    · simp [const_frame.to_bool, hot]

/-- C16 (witness): the scenario planes and descriptor under the null tag: the
source serves `[1,2,3,4]` and width 2 before finalisation, the finalised
frame serves the empty buffer and width 0. -/
theorem C16_null_tag_hides_payload_witness :
    ((mutable_frame.ctor 0 [⟨[1, 2, 3, 4]⟩] ⟨[10, -10]⟩ scenario_desc).image_data 0
        = .ok ⟨[1, 2, 3, 4]⟩ ∧
     (mutable_frame.ctor 0 [⟨[1, 2, 3, 4]⟩] ⟨[10, -10]⟩ scenario_desc).width = .ok 2) ∧
    (∃ f m1 h1, const_frame.ctor_mutable_frame ⟨[]⟩
        (mutable_frame.ctor 0 [⟨[1, 2, 3, 4]⟩] ⟨[10, -10]⟩ scenario_desc) = .ok (f, m1, h1) ∧
      (∀ i, f.image_data i = .ok array.empty) ∧
      f.width = .ok 0 ∧ f.height = .ok 0 ∧ f.size = .ok 0 ∧
      f.audio_data
        = (mutable_frame.ctor 0 [⟨[1, 2, 3, 4]⟩] ⟨[10, -10]⟩ scenario_desc).audio_data ∧
      f.pixel_format_desc
        = (mutable_frame.ctor 0 [⟨[1, 2, 3, 4]⟩] ⟨[10, -10]⟩ scenario_desc).pixel_format_desc ∧
      f.geometry
        = (mutable_frame.ctor 0 [⟨[1, 2, 3, 4]⟩] ⟨[10, -10]⟩ scenario_desc).geometry ∧
      f.stream_tag = .ok 0 ∧
      f.to_bool = false) :=
  ⟨⟨by decide, by decide⟩,
   C16_null_tag_hides_payload ⟨[]⟩
     (mutable_frame.ctor 0 [⟨[1, 2, 3, 4]⟩] ⟨[10, -10]⟩ scenario_desc) (by decide)⟩

/-! ## C17 : plane list and descriptor are read independently -/

/-- C17: for a const_frame with a non-null tag built from `k` planes and a
descriptor with `n` planes, `image_data(i)` succeeds exactly for `i < k`
whatever `n` is, and `width()`, `height()` and `size()` succeed exactly when
`n >= 1` whatever `k` is, each failure being out-of-range; no check relates
`k` and `n`, so with `k >= 1` and `n = 0` `image_data(0)` succeeds while
`width()` fails, and with `k = 0` and `n >= 1` `width()` succeeds while
`image_data(0)` fails. -/
theorem C17_planes_and_descriptor_independent (h : Heap) (tag : Nat)
    (image_data : List (array Nat)) (audio_data : array Int) (desc : pixel_format_desc)
    (htag : tag ≠ 0) :
    (∀ i, (∃ b, (const_frame.ctor_data h tag image_data audio_data desc).1.image_data i = .ok b)
        ↔ i < image_data.length) ∧
    (∀ i, (const_frame.ctor_data h tag image_data audio_data desc).1.image_data i
        = .error .out_of_range ↔ image_data.length ≤ i) ∧
    ((∃ w, (const_frame.ctor_data h tag image_data audio_data desc).1.width = .ok w)
        ↔ 1 ≤ desc.planes.length) ∧
    ((∃ w, (const_frame.ctor_data h tag image_data audio_data desc).1.height = .ok w)
        ↔ 1 ≤ desc.planes.length) ∧
    ((∃ w, (const_frame.ctor_data h tag image_data audio_data desc).1.size = .ok w)
        ↔ 1 ≤ desc.planes.length) ∧
    (desc.planes.length = 0 →
      (const_frame.ctor_data h tag image_data audio_data desc).1.width = .error .out_of_range ∧
      (const_frame.ctor_data h tag image_data audio_data desc).1.height = .error .out_of_range ∧
      (const_frame.ctor_data h tag image_data audio_data desc).1.size = .error .out_of_range) ∧
    (1 ≤ image_data.length → desc.planes.length = 0 →
      (∃ b, (const_frame.ctor_data h tag image_data audio_data desc).1.image_data 0 = .ok b) ∧
      (const_frame.ctor_data h tag image_data audio_data desc).1.width
        = .error .out_of_range) ∧
    (image_data.length = 0 → 1 ≤ desc.planes.length →
      (∃ w, (const_frame.ctor_data h tag image_data audio_data desc).1.width = .ok w) ∧
      (const_frame.ctor_data h tag image_data audio_data desc).1.image_data 0
        = .error .out_of_range) := by
  have himg : ∀ i, (const_frame.ctor_data h tag image_data audio_data desc).1.image_data i
      = vector_at image_data i := by
    intro i
    simp [const_frame.ctor_data, Heap.new_impl, const_frame.image_data,
      const_frame.impl.image_data, const_frame.impl.ctor_data, htag]
  have hw : (const_frame.ctor_data h tag image_data audio_data desc).1.width
      = (vector_at desc.planes 0).map (fun pl => pl.width) := by
    simp [const_frame.ctor_data, Heap.new_impl, const_frame.width,
      const_frame.impl.width, const_frame.impl.ctor_data, htag]
  have hh : (const_frame.ctor_data h tag image_data audio_data desc).1.height
      = (vector_at desc.planes 0).map (fun pl => pl.height) := by
    simp [const_frame.ctor_data, Heap.new_impl, const_frame.height,
      const_frame.impl.height, const_frame.impl.ctor_data, htag]
  have hs : (const_frame.ctor_data h tag image_data audio_data desc).1.size
      = (vector_at desc.planes 0).map (fun pl => pl.size) := by
    simp [const_frame.ctor_data, Heap.new_impl, const_frame.size,
      const_frame.impl.size, const_frame.impl.ctor_data, htag]
  have hmap : ∀ (g : pixel_format_desc.plane → Nat),
      (∃ w, (vector_at desc.planes 0).map g = .ok w) ↔ 1 ≤ desc.planes.length := by
    intro g
    cases hp : desc.planes with
    | nil => simp [vector_at, Except.map]
    | cons p t => simp [vector_at, Except.map]
  have hfail : ∀ (g : pixel_format_desc.plane → Nat), desc.planes.length = 0 →
      (vector_at desc.planes 0).map g = .error .out_of_range := by
    intro g h0
    rw [vector_at_of_ge desc.planes 0 (by omega)]
    rfl
  simp only [himg, hw, hh, hs]
  refine ⟨fun i => vector_at_ok_iff image_data i, fun i => vector_at_error_iff image_data i,
    hmap _, hmap _, hmap _, fun h0 => ⟨hfail _ h0, hfail _ h0, hfail _ h0⟩, ?_, ?_⟩
  · intro hk hn
    exact ⟨(vector_at_ok_iff image_data 0).mpr (by omega), hfail _ hn⟩
  · intro hk hn
    exact ⟨(hmap _).mpr hn, vector_at_of_ge image_data 0 (by omega)⟩

/-- C17 (witness): under tag 7, one plane with the zero-plane invalid descriptor
serves `image_data(0)` while `width()` fails, and no plane with the scenario
descriptor serves `width()` while `image_data(0)` fails. -/
theorem C17_planes_and_descriptor_independent_witness :
    ((const_frame.ctor_data ⟨[]⟩ 7 [⟨[1, 2, 3, 4]⟩] ⟨[]⟩
        (pixel_format_desc.of_format pixel_format.invalid)).1.image_data 0
        = .ok ⟨[1, 2, 3, 4]⟩ ∧
     (const_frame.ctor_data ⟨[]⟩ 7 [⟨[1, 2, 3, 4]⟩] ⟨[]⟩
        (pixel_format_desc.of_format pixel_format.invalid)).1.width
        = .error .out_of_range) ∧
    ((const_frame.ctor_data ⟨[]⟩ 7 [] ⟨[]⟩ scenario_desc).1.width = .ok 2 ∧
     (const_frame.ctor_data ⟨[]⟩ 7 [] ⟨[]⟩ scenario_desc).1.image_data 0
        = .error .out_of_range) :=
  ⟨⟨by decide,
    ((C17_planes_and_descriptor_independent ⟨[]⟩ 7 [⟨[1, 2, 3, 4]⟩] ⟨[]⟩
      (pixel_format_desc.of_format pixel_format.invalid) (by decide)).2.2.2.2.2.2.1
      (by decide) (by decide)).2⟩,
   ⟨by decide,
    ((C17_planes_and_descriptor_independent ⟨[]⟩ 7 [] ⟨[]⟩ scenario_desc
      (by decide)).2.2.2.2.2.2.2 (by decide) (by decide)).2⟩⟩

end caspar.core
